import Mathlib

/-!
# Shallow embedding of accessible_output2/outputs/voiceover.py

The source file defines two classes:

* `VoiceOverBridge` — a thin ctypes wrapper around `libVoiceOver.dylib`,
  exposing `init`, `is_running`, `speak`, `shutdown` over four native
  symbols (`vo_init_with_window`, `vo_is_running`, `vo_announce`,
  `vo_shutdown`), plus a static dylib-path resolver.
* `VoiceOver` — the output adapter: lazy bridge construction, window-handle
  extraction from a wx window object, and catch-all error conversion.

The native library, the wx toolkit and the filesystem are external
collaborators; they are modelled as explicit environment records whose
fields give each foreign call's outcome (`Except Unit _`, where `error`
means the call raised).  Python exceptions are modelled with `Except PyErr`.
Every native invocation is recorded in an event trace (`List NativeCall`)
so that call-count properties can be stated.
-/

set_option autoImplicit false

/-- A Python exception value, restricted to the kinds the source raises. -/
inductive PyErr where
  /-- `ValueError`, raised by `VoiceOverBridge.init` on a null/zero handle. -/
  | valueError (msg : String)
  /-- `RuntimeError`, raised by `VoiceOverBridge.speak` before a successful init. -/
  | runtimeError (msg : String)
  /-- `TypeError`, raised by `VoiceOverBridge.speak` on a non-string payload. -/
  | typeError (msg : String)
  /-- Any exception propagating out of a native (ctypes) call. -/
  | nativeError
  deriving DecidableEq, Repr

/-- One invocation of a native symbol, as recorded in the event trace. -/
inductive NativeCall where
  /-- `vo_init_with_window(ptr)` with the pointer's numeric value. -/
  | initCall (ptr : Nat)
  /-- `vo_is_running()`. -/
  | isRunningCall
  /-- `vo_announce(payload, flag)` with the UTF-8 payload bytes and the int flag. -/
  | announceCall (payload : List UInt8) (flag : Int)
  /-- `vo_shutdown()`. -/
  | shutdownCall
  deriving DecidableEq, Repr

/-- Behaviour of the loaded native library: for each symbol, either the
value the call returns (`Except.ok`) or the fact that it raises
(`Except.error ()`). -/
structure NativeLib where
  /-- Outcome of `vo_init_with_window` as a function of the pointer value. -/
  initRes : Nat → Except Unit Bool
  /-- Outcome of `vo_is_running`. -/
  isRunningRes : Except Unit Bool
  /-- Outcome of `vo_announce` as a function of payload bytes and flag. -/
  announceRes : List UInt8 → Int → Except Unit Bool
  /-- Outcome of `vo_shutdown`. -/
  shutdownRes : Except Unit Unit

/-- The mutable state of a `VoiceOverBridge` instance: just the
`self.initialized` flag. -/
structure BridgeState where
  initialized : Bool
  deriving DecidableEq, Repr

/-- The `hwnd` argument of `VoiceOverBridge.init`
(`Union[int, ctypes.c_void_p]`, and `None` is checked for explicitly). -/
inductive PyHandle where
  /-- Python `None`. -/
  | none
  /-- A Python `int`. -/
  | int (n : Int)
  /-- A `ctypes.c_void_p` with the given underlying value (0 for a null pointer). -/
  | cVoidP (v : Nat)
  deriving DecidableEq, Repr

/-- The `text` argument of `speak`: a `str`, or any non-string value. -/
inductive PyText where
  | str (s : String)
  | nonStr
  deriving DecidableEq, Repr

/-- UTF-8 encoding of a Python string (`text.encode("utf-8")`): the
concatenation of the UTF-8 byte sequences of its characters. -/
def utf8Bytes (s : String) : List UInt8 :=
  s.data.flatMap String.utf8EncodeChar

/-- `ctypes.c_void_p(int(hwnd))`: the pointer value obtained from a handle,
wrapping a Python int modulo 2^64 as ctypes does on a 64-bit platform. -/
def ptrOfHandle : PyHandle → Nat
  | PyHandle.none => 0
  | PyHandle.int n => (n % (2 : Int) ^ 64).toNat
  | PyHandle.cVoidP v => v

/-- The Python test `hwnd in (None, 0)`: membership via `==`, which is true
exactly for `None` and the integer `0`.  A `ctypes.c_void_p` never compares
equal to `None` or `0`, even when it wraps a null pointer. -/
def isNullArg : PyHandle → Bool
  | PyHandle.none => true
  | PyHandle.int n => n = 0
  | PyHandle.cVoidP _ => false

namespace VoiceOverBridge

/-- `VoiceOverBridge.init(self, hwnd)`:
raises `ValueError` if `hwnd in (None, 0)`; otherwise coerces the handle to
a `c_void_p`, calls `vo_init_with_window`, stores the boolean result in
`self.initialized` and returns it.  A raising native call propagates and
leaves the state unchanged. -/
def init (lib : NativeLib) (st : BridgeState) (hwnd : PyHandle) :
    Except PyErr Bool × BridgeState × List NativeCall :=
  if isNullArg hwnd then
    (Except.error (PyErr.valueError "VoiceOver init requires a valid window handle"), st, [])
  else
    let ptr := ptrOfHandle hwnd
    match lib.initRes ptr with
    | Except.ok ok => (Except.ok ok, { st with initialized := ok }, [NativeCall.initCall ptr])
    | Except.error _ => (Except.error PyErr.nativeError, st, [NativeCall.initCall ptr])

/-- `VoiceOverBridge.is_running(self)`: `bool(self.lib.vo_is_running())`. -/
def is_running (lib : NativeLib) : Except PyErr Bool × List NativeCall :=
  match lib.isRunningRes with
  | Except.ok b => (Except.ok b, [NativeCall.isRunningCall])
  | Except.error _ => (Except.error PyErr.nativeError, [NativeCall.isRunningCall])

/-- `VoiceOverBridge.speak(self, text, interrupt)`:
raises `RuntimeError` when not initialized, `TypeError` when `text` is not a
string; otherwise calls `vo_announce(text.encode("utf-8"), 1 if interrupt
else 0)` and returns the boolean result.  The bridge state is not mutated. -/
def speak (lib : NativeLib) (st : BridgeState) (text : PyText) (interrupt : Bool) :
    Except PyErr Bool × List NativeCall :=
  if st.initialized = false then
    (Except.error (PyErr.runtimeError "VoiceOver not initialized with a window yet."), [])
  else
    match text with
    | PyText.nonStr =>
      (Except.error (PyErr.typeError "VoiceOver.speak expects a string message"), [])
    | PyText.str s =>
      let payload := utf8Bytes s
      let flag : Int := if interrupt then 1 else 0
      match lib.announceRes payload flag with
      | Except.ok b => (Except.ok b, [NativeCall.announceCall payload flag])
      | Except.error _ => (Except.error PyErr.nativeError, [NativeCall.announceCall payload flag])

/-- `VoiceOverBridge.shutdown(self)`: calls `vo_shutdown()` and then sets
`self.initialized = False`.  When the native call raises, the exception
propagates before the flag assignment, so the state is unchanged. -/
def shutdown (lib : NativeLib) (st : BridgeState) :
    Except PyErr Unit × BridgeState × List NativeCall :=
  match lib.shutdownRes with
  | Except.ok _ => (Except.ok (), { st with initialized := false }, [NativeCall.shutdownCall])
  | Except.error _ => (Except.error PyErr.nativeError, st, [NativeCall.shutdownCall])

end VoiceOverBridge

/-!
## The wx window collaborator and handle extraction
-/

/-- The value a window's handle accessor returns, as seen by
`VoiceOver._extract_handle`. -/
inductive HandleVal where
  /-- Python `None`. -/
  | none
  /-- A Python `int`. -/
  | int (n : Int)
  /-- A `ctypes.c_void_p` with the given underlying value. -/
  | cVoidP (v : Nat)
  /-- Any value on which `int(handle)` raises `TypeError` or `ValueError`. -/
  | nonCoercible
  deriving DecidableEq, Repr

/-- Outcome of looking up and calling one accessor attribute on a window. -/
inductive AttrResult where
  /-- The attribute is absent (`hasattr` is false). -/
  | absent
  /-- Calling the accessor raises an exception. -/
  | raises
  /-- Calling the accessor returns the given value. -/
  | returns (v : HandleVal)
  deriving DecidableEq, Repr

/-- A wx window object, reduced to the two accessors the source consults. -/
structure PyWindow where
  macGetTopLevelWindowRef : AttrResult
  getHandle : AttrResult
  deriving DecidableEq, Repr

/-- Truthiness of an optional `ctypes.c_void_p`: Python treats both `None`
and a pointer wrapping 0 as falsy. -/
def truthyOpt : Option Nat → Bool
  | Option.none => false
  | Option.some v => v != 0

namespace VoiceOver

/-- `VoiceOver._extract_handle(window)`: try `MacGetTopLevelWindowRef`, else
`GetHandle` (exceptions during either swallowed to `None`); treat `None`/`0`
as absent; keep a `c_void_p` as is; otherwise coerce with
`ctypes.c_void_p(int(handle))`, returning `None` when coercion raises.
The result is the pointer's numeric value. -/
def extract_handle : Option PyWindow → Option Nat
  | Option.none => Option.none
  | Option.some w =>
    let handle : HandleVal :=
      match w.macGetTopLevelWindowRef with
      | AttrResult.returns v => v
      | AttrResult.raises => HandleVal.none
      | AttrResult.absent =>
        match w.getHandle with
        | AttrResult.returns v => v
        | AttrResult.raises => HandleVal.none
        | AttrResult.absent => HandleVal.none
    match handle with
    | HandleVal.none => Option.none
    | HandleVal.int n =>
      if n = 0 then Option.none else Option.some ((n % (2 : Int) ^ 64).toNat)
    | HandleVal.cVoidP v => Option.some v
    | HandleVal.nonCoercible => Option.none

end VoiceOver

/-- Environment of one `VoiceOver` adapter instance: whether
`VoiceOverBridge()` construction succeeds, the behaviour of the loaded
native library, and the window (if any) that auto-detection
(`wx.GetApp().GetTopWindow()`) would hand to `_extract_handle`.
`Option.none` covers wx being absent, no app, or no top window. -/
structure Env where
  constructOk : Bool
  lib : NativeLib
  autoWindow : Option PyWindow

/-- The mutable fields of a `VoiceOver` adapter instance. -/
structure OutputState where
  /-- `self._bridge` (the contained bridge's state when present). -/
  bridge : Option BridgeState
  /-- `self._window_handle` (the stored `c_void_p` value when present). -/
  windowHandle : Option Nat
  /-- `self._initialization_attempted`. -/
  initializationAttempted : Bool
  /-- `self._initialized`. -/
  initialized : Bool
  /-- Whether `self._last_error` holds an exception. -/
  lastErrorSet : Bool
  deriving DecidableEq, Repr

namespace VoiceOver

/-- The adapter state right after `VoiceOver.__init__`. -/
def initialState : OutputState :=
  { bridge := Option.none
    windowHandle := Option.none
    initializationAttempted := false
    initialized := false
    lastErrorSet := false }

/-- `VoiceOver.set_main_window(self, window)`: if a truthy handle is
extracted, store it, clear both flags, and discard any existing bridge
after defensively calling its `shutdown` (errors ignored); otherwise do
nothing. -/
def set_main_window (env : Env) (st : OutputState) (window : Option PyWindow) :
    OutputState × List NativeCall :=
  let handle := extract_handle window
  if truthyOpt handle then
    let st1 := { st with
      windowHandle := handle
      initializationAttempted := false
      initialized := false }
    match st.bridge with
    | Option.none => (st1, [])
    | Option.some bs =>
      let r := VoiceOverBridge.shutdown env.lib bs
      ({ st1 with bridge := Option.none }, r.2.2)
  else (st, [])

/-- The handle value `self._window_handle or self._auto_detect_window_handle()`
evaluates to inside `_ensure_bridge`, collapsed to `none` when falsy. -/
def effHandle (env : Env) (st : OutputState) : Option Nat :=
  if truthyOpt st.windowHandle then st.windowHandle
  else if truthyOpt (extract_handle env.autoWindow) then extract_handle env.autoWindow
  else Option.none

/-- The part of `_ensure_bridge` after `self._bridge` is known to be set:
resolve a window handle (auto-detection stores a truthy result back into
`self._window_handle`), defer when no truthy handle is available, otherwise
call `VoiceOverBridge.init` and fold its outcome into the adapter flags. -/
def ensure_bridge_rest (env : Env) (st : OutputState) (bs : BridgeState) :
    Bool × OutputState × List NativeCall :=
  let auto := extract_handle env.autoWindow
  let st1 :=
    if truthyOpt st.windowHandle then st
    else if truthyOpt auto then { st with windowHandle := auto }
    else st
  match effHandle env st with
  | Option.none => (false, { st1 with initializationAttempted := true }, [])
  | Option.some v =>
    match VoiceOverBridge.init env.lib bs (PyHandle.cVoidP v) with
    | (Except.ok true, bs2, calls) =>
      (true, { st1 with
        bridge := Option.some bs2
        initialized := true
        initializationAttempted := true }, calls)
    | (Except.ok false, bs2, calls) =>
      (false, { st1 with
        bridge := Option.some bs2
        initializationAttempted := true }, calls)
    | (Except.error _, bs2, calls) =>
      (false, { st1 with
        bridge := Option.some bs2
        lastErrorSet := true
        initializationAttempted := true }, calls)

/-- `VoiceOver._ensure_bridge(self)`: return `True` straight away when the
adapter is initialized with a live bridge; construct the bridge on first
need (a failing construction records `last_error` and reports not ready);
then resolve a handle and initialize, per `ensure_bridge_rest`. -/
def ensure_bridge (env : Env) (st : OutputState) :
    Bool × OutputState × List NativeCall :=
  if st.initialized && st.bridge.isSome then (true, st, [])
  else
    match st.bridge with
    | Option.none =>
      if env.constructOk then
        ensure_bridge_rest env { st with bridge := Option.some { initialized := false } }
          { initialized := false }
      else (false, { st with lastErrorSet := true }, [])
    | Option.some bs => ensure_bridge_rest env st bs

/-- `VoiceOver.speak(self, text, interrupt=False)`: not ready → `False`;
otherwise delegate to the bridge, converting any exception to `False`. -/
def speak (env : Env) (st : OutputState) (text : PyText) (interrupt : Bool) :
    Bool × OutputState × List NativeCall :=
  match ensure_bridge env st with
  | (false, st1, c1) => (false, st1, c1)
  | (true, st1, c1) =>
    match st1.bridge with
    | Option.some bs =>
      match VoiceOverBridge.speak env.lib bs text interrupt with
      | (Except.ok b, c2) => (b, st1, c1 ++ c2)
      | (Except.error _, c2) => (false, st1, c1 ++ c2)
    | Option.none => (false, st1, c1)

/-- `VoiceOver.silence(self)`: no-op unless a bridge exists and is
initialized; then an interrupt-speak of the empty string, errors swallowed. -/
def silence (env : Env) (st : OutputState) : OutputState × List NativeCall :=
  match st.bridge with
  | Option.none => (st, [])
  | Option.some bs =>
    if bs.initialized then
      let r := VoiceOverBridge.speak env.lib bs (PyText.str "") true
      (st, r.2)
    else (st, [])

/-- `VoiceOver.is_active(self)`: when no bridge exists yet, run one
readiness pass; if a bridge exists afterwards, return `is_running`
(any exception converted to `False`), else `False`. -/
def is_active (env : Env) (st : OutputState) :
    Bool × OutputState × List NativeCall :=
  let p :=
    match st.bridge with
    | Option.none =>
      let r := ensure_bridge env st
      (r.2.1, r.2.2)
    | Option.some _ => (st, ([] : List NativeCall))
  match p.1.bridge with
  | Option.none => (false, p.1, p.2)
  | Option.some _ =>
    match VoiceOverBridge.is_running env.lib with
    | (Except.ok b, c2) => (b, p.1, p.2 ++ c2)
    | (Except.error _, c2) => (false, p.1, p.2 ++ c2)

/-- `VoiceOver.shutdown(self)`: when a bridge exists, call its `shutdown`
(errors swallowed) and in a `finally` block drop the bridge and clear the
initialized flag. -/
def adapter_shutdown (env : Env) (st : OutputState) : OutputState × List NativeCall :=
  match st.bridge with
  | Option.none => (st, [])
  | Option.some bs =>
    let r := VoiceOverBridge.shutdown env.lib bs
    ({ st with bridge := Option.none, initialized := false }, r.2.2)

end VoiceOver

/-!
## Dylib path resolution (`VoiceOverBridge._resolve_dylib_path`)

`os.path.join` and `os.path.dirname` are pure posix string functions and are
implemented here; `os.path.abspath` and `os.path.exists` depend on the
process state (cwd, filesystem) and are supplied by the environment, as is
the optional `platform_utils.paths` collaborator.
-/

/-- Whether a path string starts with the posix separator. -/
def startsWithSlash (s : String) : Bool :=
  match s.data with
  | [] => false
  | c :: _ => c == '/'

/-- Whether a path string ends with the posix separator. -/
def endsWithSlash (s : String) : Bool :=
  match s.data.getLast? with
  | Option.none => false
  | Option.some c => c == '/'

/-- Two-argument `posixpath.join`. -/
def pjoin2 (a b : String) : String :=
  if startsWithSlash b then b
  else if a = "" || endsWithSlash a then a ++ b
  else a ++ "/" ++ b

/-- `os.path.join(a, *rest)` on posix. -/
def pjoin (a : String) (rest : List String) : String :=
  rest.foldl pjoin2 a

/-- The prefix of `cs` up to and including its last slash
(`p[:p.rfind(sep) + 1]`), empty when there is no slash. -/
def headUpToLastSlash (cs : List Char) : List Char :=
  (cs.reverse.dropWhile (fun c => c != '/')).reverse

/-- Strip trailing slashes (`head.rstrip(sep)`). -/
def rstripSlashes (cs : List Char) : List Char :=
  (cs.reverse.dropWhile (fun c => c == '/')).reverse

/-- `posixpath.dirname`. -/
def dirnameStr (p : String) : String :=
  let head := headUpToLastSlash p.data
  if head != [] && head.any (fun c => c != '/') then
    String.mk (rstripSlashes head)
  else String.mk head

/-- Environment of one `_resolve_dylib_path` run: the process-dependent
path primitives, the module's `__file__`, and the optional
`platform_utils.paths` collaborator (each accessor either raises or
returns; `Except.error ()` means it raised). -/
structure ResolveEnv where
  /-- `os.path.abspath`. -/
  abspath : String → String
  /-- `os.path.exists`. -/
  pathExists : String → Bool
  /-- `__file__` of the voiceover module. -/
  file : String
  /-- Whether `from platform_utils import paths` succeeds. -/
  puImportOk : Bool
  /-- Outcome of `paths.is_frozen()`. -/
  puIsFrozen : Except Unit Bool
  /-- Outcome of `paths.embedded_data_path()` (deterministic per run). -/
  puEmbeddedDataPath : Except Unit String
  /-- Outcome of `paths.module_path()`. -/
  puModulePath : Except Unit String

/-- The candidates appended inside the `try` block guarded by
`platform_utils`: an exception anywhere in the block keeps only the
candidates already appended. -/
def platformCandidates (env : ResolveEnv) (dylib_name : String) : List String :=
  if env.puImportOk = false then []
  else
    match env.puIsFrozen with
    | Except.error _ => []
    | Except.ok true =>
      match env.puEmbeddedDataPath with
      | Except.error _ => []
      | Except.ok edp =>
        [pjoin edp ["accessible_output2", "lib", dylib_name],
         pjoin edp ["lib", "accessible_output2", "lib", dylib_name]]
    | Except.ok false =>
      match env.puModulePath with
      | Except.error _ => []
      | Except.ok mp =>
        match env.puEmbeddedDataPath with
        | Except.error _ => [pjoin mp ["lib", dylib_name]]
        | Except.ok edp =>
          [pjoin mp ["lib", dylib_name],
           pjoin edp ["lib", "accessible_output2", "lib", dylib_name]]

/-- The full `candidates` list built by `_resolve_dylib_path`:
package-local `lib/` directory, the `platform_utils` block, then
`os.path.abspath(dylib_name)` as final fallback. -/
def resolveCandidates (env : ResolveEnv) (dylib_name : String) : List String :=
  pjoin (dirnameStr (dirnameStr (env.abspath env.file))) ["lib", dylib_name]
    :: platformCandidates env dylib_name
    ++ [env.abspath dylib_name]

/-- The search loop of `_resolve_dylib_path`: skip empty candidates,
normalize with `abspath`, skip duplicates already in `searched`, return the
first existing path; when the list runs out, report the searched paths. -/
def searchLoop (env : ResolveEnv) (searched : List String) :
    List String → List String ⊕ String
  | [] => Sum.inl searched
  | c :: rest =>
    if c = "" then searchLoop env searched rest
    else
      let a := env.abspath c
      if searched.contains a then searchLoop env searched rest
      else if env.pathExists a then Sum.inr a
      else searchLoop env (searched ++ [a]) rest

/-- `VoiceOverBridge._resolve_dylib_path(dylib_name)`: the resolved path, or
the `FileNotFoundError` message listing every path searched. -/
def resolve_dylib_path (env : ResolveEnv) (dylib_name : String) :
    Except String String :=
  match searchLoop env [] (resolveCandidates env dylib_name) with
  | Sum.inr p => Except.ok p
  | Sum.inl searched =>
    Except.error ("VoiceOver dylib not found. Searched: " ++ String.intercalate ", " searched)

/-- Normalize, skip empties, and drop duplicates keeping first occurrences:
the list of distinct absolute paths the search visits. -/
def dedupAbs (env : ResolveEnv) (seen : List String) : List String → List String
  | [] => []
  | c :: rest =>
    if c = "" then dedupAbs env seen rest
    else
      let a := env.abspath c
      if seen.contains a then dedupAbs env seen rest
      else a :: dedupAbs env (seen ++ [a]) rest

/-- Modelled from the spec: the candidate locations in the spec's order —
(a) the package-local library directory, (b) the frozen-application
resource path when frozen, or the module-relative path when not,
(c) the secondary bundled-resource fallback path, (d) the current working
directory — with the packaging collaborator treated as absent when it is
unavailable.  Stated for collaborators that do not raise partway. -/
def specCandidates (env : ResolveEnv) (dylib_name : String) : List String :=
  let packageLocal := pjoin (dirnameStr (dirnameStr (env.abspath env.file))) ["lib", dylib_name]
  let cwdFallback := env.abspath dylib_name
  if env.puImportOk = false then [packageLocal, cwdFallback]
  else
    match env.puIsFrozen, env.puEmbeddedDataPath, env.puModulePath with
    | Except.ok true, Except.ok edp, _ =>
      [packageLocal,
       pjoin edp ["accessible_output2", "lib", dylib_name],
       pjoin edp ["lib", "accessible_output2", "lib", dylib_name],
       cwdFallback]
    | Except.ok false, Except.ok edp, Except.ok mp =>
      [packageLocal,
       pjoin mp ["lib", dylib_name],
       pjoin edp ["lib", "accessible_output2", "lib", dylib_name],
       cwdFallback]
    | _, _, _ => [packageLocal, cwdFallback]

/-- Modelled from the spec: every candidate normalized to an absolute path,
duplicates skipped, the first existing path wins, and otherwise a NotFound
error listing every distinct path searched. -/
def spec_resolve_dylib (env : ResolveEnv) (dylib_name : String) :
    Except String String :=
  let searched := dedupAbs env [] (specCandidates env dylib_name)
  match searched.find? env.pathExists with
  | Option.some p => Except.ok p
  | Option.none =>
    Except.error ("VoiceOver dylib not found. Searched: " ++ String.intercalate ", " searched)

/-- The packaging collaborator either failed to import, or none of its
accessors raise. -/
def puWellBehaved (env : ResolveEnv) : Prop :=
  env.puImportOk = false ∨
    ((∃ f, env.puIsFrozen = Except.ok f) ∧
     (∃ e, env.puEmbeddedDataPath = Except.ok e) ∧
     (∃ m, env.puModulePath = Except.ok m))

/-!
## Operation alphabets for sequence claims
-/

/-- One operation on a `VoiceOverBridge` instance. -/
inductive BridgeOp where
  | initOp (h : PyHandle)
  | isRunningOp
  | speakOp (t : PyText) (i : Bool)
  | shutdownOp
  deriving DecidableEq, Repr

/-- The bridge-state effect of one bridge operation (`is_running` and
`speak` never assign to `self.initialized`; `init` and `shutdown` update it
as in the source, exceptions included). -/
def bridgeStep (lib : NativeLib) (st : BridgeState) : BridgeOp → BridgeState
  | BridgeOp.initOp h => (VoiceOverBridge.init lib st h).2.1
  | BridgeOp.isRunningOp => st
  | BridgeOp.speakOp _ _ => st
  | BridgeOp.shutdownOp => (VoiceOverBridge.shutdown lib st).2.1

/-- One adapter operation between two `set_main_window` calls. -/
inductive AdapterOp where
  | speakOp (t : PyText) (i : Bool)
  | silenceOp
  | isActiveOp
  deriving DecidableEq, Repr

/-- Run one adapter operation, keeping the new state and the native calls
it makes. -/
def runOp (env : Env) (st : OutputState) : AdapterOp → OutputState × List NativeCall
  | AdapterOp.speakOp t i =>
    let r := VoiceOver.speak env st t i
    (r.2.1, r.2.2)
  | AdapterOp.silenceOp => VoiceOver.silence env st
  | AdapterOp.isActiveOp =>
    let r := VoiceOver.is_active env st
    (r.2.1, r.2.2)

/-- Run a list of adapter operations, concatenating their traces. -/
def runOps (env : Env) (st : OutputState) : List AdapterOp → OutputState × List NativeCall
  | [] => (st, [])
  | op :: ops =>
    let p := runOp env st op
    let q := runOps env p.1 ops
    (q.1, p.2 ++ q.2)

/-- Number of `vo_shutdown` invocations in a trace. -/
def countShutdown (calls : List NativeCall) : Nat :=
  calls.count NativeCall.shutdownCall

/-!
## Decidable equality for `Except`, used to evaluate witnesses
-/

instance {ε α : Type} [DecidableEq ε] [DecidableEq α] : DecidableEq (Except ε α) := fun a b =>
  match a, b with
  | Except.ok x, Except.ok y =>
    if h : x = y then isTrue (by rw [h]) else isFalse (by intro hc; cases hc; exact h rfl)
  | Except.error x, Except.error y =>
    if h : x = y then isTrue (by rw [h]) else isFalse (by intro hc; cases hc; exact h rfl)
  | Except.ok _, Except.error _ => isFalse (by intro hc; cases hc)
  | Except.error _, Except.ok _ => isFalse (by intro hc; cases hc)

/-- Whether an `Except Unit Unit` outcome is a raise. -/
def exceptRaised : Except Unit Unit → Bool
  | Except.ok _ => false
  | Except.error _ => true

/-!
## Concrete native-library behaviours used in witnesses and counterexamples
-/

/-- A stub library on which every call succeeds and returns true. -/
def stubLibTrue : NativeLib :=
  { initRes := fun _ => Except.ok true
    isRunningRes := Except.ok true
    announceRes := fun _ _ => Except.ok true
    shutdownRes := Except.ok () }

/-- A library whose `vo_shutdown` raises; everything else succeeds. -/
def raisingShutdownLib : NativeLib :=
  { initRes := fun _ => Except.ok true
    isRunningRes := Except.ok true
    announceRes := fun _ _ => Except.ok true
    shutdownRes := Except.error () }

/-- A library whose `vo_init_with_window` returns false; everything else
succeeds. -/
def falseInitLib : NativeLib :=
  { initRes := fun _ => Except.ok false
    isRunningRes := Except.ok true
    announceRes := fun _ _ => Except.ok true
    shutdownRes := Except.ok () }

/-!
## Claims
-/

/-- **C2.** For every bridge instance: `speak(text, interrupt)` raises
`RuntimeError` (NotInitialized) whenever no successful init has occurred,
making no native call; when initialized it raises `TypeError` whenever
`text` is not a string, making no native call; otherwise it calls
`vo_announce` exactly once with the UTF-8 encoding of `text` and flag `1`
if `interrupt` else `0`, and returns the native boolean result (a raising
native call propagates as an exception). -/
theorem bridge_speak_spec (lib : NativeLib) (st : BridgeState) (text : PyText)
    (interrupt : Bool) :
    (st.initialized = false →
      VoiceOverBridge.speak lib st text interrupt =
        (Except.error (PyErr.runtimeError "VoiceOver not initialized with a window yet."), []))
    ∧ (st.initialized = true → text = PyText.nonStr →
      VoiceOverBridge.speak lib st text interrupt =
        (Except.error (PyErr.typeError "VoiceOver.speak expects a string message"), []))
    ∧ (∀ s, st.initialized = true → text = PyText.str s →
      (VoiceOverBridge.speak lib st text interrupt).2 =
        [NativeCall.announceCall (utf8Bytes s) (if interrupt then 1 else 0)]
      ∧ (VoiceOverBridge.speak lib st text interrupt).1 =
        (match lib.announceRes (utf8Bytes s) (if interrupt then 1 else 0) with
         | Except.ok b => Except.ok b
         | Except.error _ => Except.error PyErr.nativeError)) := by
  refine ⟨fun h0 => ?_, fun h0 ht => ?_, fun s h0 ht => ?_⟩
  · simp [VoiceOverBridge.speak, h0]
  · subst ht; simp [VoiceOverBridge.speak, h0]
  · subst ht
    cases hr : lib.announceRes (utf8Bytes s) (if interrupt then 1 else 0) <;>
      simp [VoiceOverBridge.speak, h0, hr]

/-- Witness for C2: the spec's scenario on a stub library — an initialized
bridge speaking "hello" with interrupt records `(b"hello", 1)` and returns
true; an uninitialized bridge raises NotInitialized. -/
theorem bridge_speak_spec_witness :
    ((VoiceOverBridge.speak stubLibTrue { initialized := true } (PyText.str "hello") true).2 =
        [NativeCall.announceCall (utf8Bytes "hello") 1]
      ∧ (VoiceOverBridge.speak stubLibTrue { initialized := true } (PyText.str "hello") true).1 =
        Except.ok true)
    ∧ VoiceOverBridge.speak stubLibTrue { initialized := false } (PyText.str "hello") true =
        (Except.error (PyErr.runtimeError "VoiceOver not initialized with a window yet."), []) := by
  constructor
  · exact (bridge_speak_spec stubLibTrue { initialized := true } (PyText.str "hello") true).2.2
      "hello" rfl rfl
  · exact (bridge_speak_spec stubLibTrue { initialized := false } (PyText.str "hello") true).1 rfl

/-- **C3.** For every handle argument that is Python `None` or the integer
`0`, `VoiceOverBridge.init` raises `ValueError` (InvalidArgument), the
native init function is not called (empty trace), and the initialized flag
is left unchanged. -/
theorem bridge_init_null_rejected (lib : NativeLib) (st : BridgeState) (hwnd : PyHandle)
    (h : hwnd = PyHandle.none ∨ hwnd = PyHandle.int 0) :
    VoiceOverBridge.init lib st hwnd =
      (Except.error (PyErr.valueError "VoiceOver init requires a valid window handle"),
        st, []) := by
  rcases h with h | h <;> subst h <;> rfl

/-- Witness for C3 at the concrete input `None` and a concrete state. -/
theorem bridge_init_null_rejected_witness :
    VoiceOverBridge.init stubLibTrue { initialized := false } PyHandle.none =
      (Except.error (PyErr.valueError "VoiceOver init requires a valid window handle"),
        { initialized := false }, []) :=
  bridge_init_null_rejected stubLibTrue { initialized := false } PyHandle.none (Or.inl rfl)

/-- **C10.** The null-handle rejection of `VoiceOverBridge.init` only covers
`None` and the integer `0`: for a `ctypes.c_void_p` wrapping the value `0`
(a wrapped null pointer), no `ValueError` is raised and the null pointer is
forwarded to `vo_init_with_window`, whose outcome is returned as usual. -/
theorem bridge_init_wrapped_null_forwarded (lib : NativeLib) (st : BridgeState) :
    VoiceOverBridge.init lib st (PyHandle.cVoidP 0) =
      (match lib.initRes 0 with
       | Except.ok b => (Except.ok b, { st with initialized := b }, [NativeCall.initCall 0])
       | Except.error _ => (Except.error PyErr.nativeError, st, [NativeCall.initCall 0])) := by
  cases hr : lib.initRes 0 <;> simp [VoiceOverBridge.init, isNullArg, ptrOfHandle, hr]

/-- **C6 (counterexample).** The claim says the initialized flag is false
after `shutdown` even when the native shutdown call raises.  On a library
whose `vo_shutdown` raises, a bridge that was initialized stays
initialized: the exception propagates before `self.initialized = False`. -/
theorem bridge_shutdown_raise_counterexample :
    ¬ ((VoiceOverBridge.shutdown raisingShutdownLib { initialized := true }).2.1.initialized
        = false) := by
  decide

/-- **C6 (amended).** After `VoiceOverBridge.shutdown` the native shutdown
function has been invoked exactly once; when the native call returns
normally the initialized flag is false regardless of any prior state, while
a raising native call propagates and leaves the state unchanged; and a
repeated shutdown is idempotent on the state. -/
theorem bridge_shutdown_spec (lib : NativeLib) (st : BridgeState) :
    (VoiceOverBridge.shutdown lib st).2.2 = [NativeCall.shutdownCall]
    ∧ (VoiceOverBridge.shutdown lib st).2.1.initialized =
        (exceptRaised lib.shutdownRes && st.initialized)
    ∧ (VoiceOverBridge.shutdown lib (VoiceOverBridge.shutdown lib st).2.1).2.1 =
        (VoiceOverBridge.shutdown lib st).2.1 := by
  cases hr : lib.shutdownRes with
  | ok u => cases u; simp [VoiceOverBridge.shutdown, exceptRaised, hr]
  | error e => cases e; simp [VoiceOverBridge.shutdown, exceptRaised, hr]

/-- **C7 (counterexample).** The claim says an initialized bridge is reset
to uninitialized only by `shutdown` (or a window-handle change).  But a
second `init` call whose native result is false also resets it: on
`falseInitLib`, an initialized bridge ends uninitialized after an `init`
operation, which is not a shutdown. -/
theorem bridge_reinit_false_counterexample :
    (bridgeStep falseInitLib { initialized := true }
        (BridgeOp.initOp (PyHandle.int 5))).initialized = false
    ∧ BridgeOp.initOp (PyHandle.int 5) ≠ BridgeOp.shutdownOp := by
  constructor
  · rfl
  · decide

/-- **C7 (amended).** Along any sequence of bridge operations (stepwise):
the initialized flag goes from false to true only on an `init` whose
native result is true; and it goes from true to false only on a `shutdown`
or on an `init` whose native result is false — `is_running` and `speak`
never change it. -/
theorem bridge_flag_transitions (lib : NativeLib) (st : BridgeState) (op : BridgeOp) :
    (st.initialized = false → (bridgeStep lib st op).initialized = true →
      ∃ h, op = BridgeOp.initOp h ∧ lib.initRes (ptrOfHandle h) = Except.ok true)
    ∧ (st.initialized = true → (bridgeStep lib st op).initialized = false →
      op = BridgeOp.shutdownOp ∨
        ∃ h, op = BridgeOp.initOp h ∧ lib.initRes (ptrOfHandle h) = Except.ok false) := by
  constructor
  · intro h0 h1
    cases op with
    | initOp h =>
      by_cases hn : isNullArg h
      · exfalso; simp [bridgeStep, VoiceOverBridge.init, hn, h0] at h1
      · cases hr : lib.initRes (ptrOfHandle h) with
        | ok b =>
          refine ⟨h, rfl, ?_⟩
          simp [bridgeStep, VoiceOverBridge.init, hn, hr] at h1
          rw [hr, h1]
        | error e => exfalso; simp [bridgeStep, VoiceOverBridge.init, hn, hr, h0] at h1
    | isRunningOp => exfalso; simp [bridgeStep, h0] at h1
    | speakOp t i => exfalso; simp [bridgeStep, h0] at h1
    | shutdownOp =>
      exfalso
      cases hr : lib.shutdownRes with
      | ok u => simp [bridgeStep, VoiceOverBridge.shutdown, hr] at h1
      | error e => simp [bridgeStep, VoiceOverBridge.shutdown, hr, h0] at h1
  · intro h0 h1
    cases op with
    | initOp h =>
      right
      by_cases hn : isNullArg h
      · exfalso; simp [bridgeStep, VoiceOverBridge.init, hn, h0] at h1
      · cases hr : lib.initRes (ptrOfHandle h) with
        | ok b =>
          refine ⟨h, rfl, ?_⟩
          simp [bridgeStep, VoiceOverBridge.init, hn, hr] at h1
          rw [hr, h1]
        | error e => exfalso; simp [bridgeStep, VoiceOverBridge.init, hn, hr, h0] at h1
    | isRunningOp => exfalso; simp [bridgeStep, h0] at h1
    | speakOp t i => exfalso; simp [bridgeStep, h0] at h1
    | shutdownOp => exact Or.inl rfl

/-- Witness for the amended C7: on a library whose init succeeds, an
uninitialized bridge becomes initialized through an `init` operation, and
the theorem yields that operation as the cause. -/
theorem bridge_flag_transitions_witness :
    ∃ h, BridgeOp.initOp (PyHandle.int 1) = BridgeOp.initOp h ∧
      stubLibTrue.initRes (ptrOfHandle h) = Except.ok true :=
  (bridge_flag_transitions stubLibTrue { initialized := false }
    (BridgeOp.initOp (PyHandle.int 1))).1 rfl rfl

/-- Helper: the search loop agrees with the declarative description —
append-normalize-dedup, then first existing path wins, else report the
whole searched list — provided nothing already seen exists. -/
theorem searchLoop_spec (env : ResolveEnv) (cands : List String) :
    ∀ seen : List String, (∀ x ∈ seen, env.pathExists x = false) →
    searchLoop env seen cands =
      (match (seen ++ dedupAbs env seen cands).find? env.pathExists with
       | Option.some c => Sum.inr c
       | Option.none => Sum.inl (seen ++ dedupAbs env seen cands)) := by
  induction cands with
  | nil =>
    intro seen hseen
    have hf : seen.find? env.pathExists = Option.none :=
      List.find?_eq_none.2 (fun x hx => by simp [hseen x hx])
    simp [searchLoop, dedupAbs, hf]
  | cons c rest ih =>
    intro seen hseen
    by_cases hc : c = ""
    · simp only [searchLoop, dedupAbs, if_pos hc]
      exact ih seen hseen
    · by_cases hmem : seen.contains (env.abspath c) = true
      · simp only [searchLoop, dedupAbs, if_neg hc, hmem, if_pos rfl, if_true]
        exact ih seen hseen
      · by_cases hex : env.pathExists (env.abspath c) = true
        · have hfseen : seen.find? env.pathExists = Option.none :=
            List.find?_eq_none.2 (fun x hx => by simp [hseen x hx])
          have hmem' : ¬ env.abspath c ∈ seen := by simpa using hmem
          simp [searchLoop, dedupAbs, if_neg hc, hmem', hex, hfseen,
            List.find?_append]
        · have hexf : env.pathExists (env.abspath c) = false := by
            cases hb : env.pathExists (env.abspath c)
            · rfl
            · exact absurd hb hex
          have hseen' : ∀ x ∈ seen ++ [env.abspath c], env.pathExists x = false := by
            intro x hx
            rcases List.mem_append.1 hx with hx | hx
            · exact hseen x hx
            · simp only [List.mem_singleton] at hx
              subst hx
              exact hexf
          have hrec := ih (seen ++ [env.abspath c]) hseen'
          simp only [searchLoop, dedupAbs, if_neg hc, if_neg hmem, hexf,
            Bool.false_eq_true, if_false]
          rw [hrec]
          simp [List.append_assoc]

/-- Helper: with a well-behaved packaging collaborator, the candidate list
built by the source matches the spec's candidate order. -/
theorem resolveCandidates_eq_spec (env : ResolveEnv) (dylib_name : String)
    (h : puWellBehaved env) :
    resolveCandidates env dylib_name = specCandidates env dylib_name := by
  by_cases hio : env.puImportOk = false
  · simp [resolveCandidates, specCandidates, platformCandidates, hio]
  · rcases h with h | ⟨⟨f, hf⟩, ⟨e, he⟩, ⟨m, hm⟩⟩
    · exact absurd h hio
    · cases f <;>
        simp [resolveCandidates, specCandidates, platformCandidates, hio, hf, he, hm]

/-- **C5.** Bridge construction resolves the library path by checking the
candidates in order — package-local library directory; frozen-application
resource path when frozen, module-relative path when not; secondary
bundled-resource fallback path; current working directory — each candidate
normalized to an absolute path, duplicates skipped, the first existing
path returned, and a NotFound error listing every distinct path searched
when none exists.  Stated for a packaging collaborator that is either
absent or does not raise. -/
theorem resolve_dylib_refines_spec (env : ResolveEnv) (dylib_name : String)
    (h : puWellBehaved env) :
    resolve_dylib_path env dylib_name = spec_resolve_dylib env dylib_name := by
  unfold resolve_dylib_path spec_resolve_dylib
  rw [resolveCandidates_eq_spec env dylib_name h]
  rw [searchLoop_spec env (specCandidates env dylib_name) [] (by intro x hx; cases hx)]
  simp only [List.nil_append]
  cases hfind : (dedupAbs env [] (specCandidates env dylib_name)).find? env.pathExists <;>
    simp [hfind]

/-- A concrete resolution environment: running from source, no packaging
collaborator, and only the cwd fallback existing on disk. -/
def sampleREnv : ResolveEnv :=
  { abspath := fun s => if startsWithSlash s then s else "/cwd/" ++ s
    pathExists := fun s => s == "/cwd/libVoiceOver.dylib"
    file := "/pkg/accessible_output2/outputs/voiceover.py"
    puImportOk := false
    puIsFrozen := Except.ok false
    puEmbeddedDataPath := Except.error ()
    puModulePath := Except.error () }

/-- Witness for C5: on `sampleREnv` the loop and the spec description agree,
and both resolve to the cwd fallback path. -/
theorem resolve_dylib_refines_spec_witness :
    resolve_dylib_path sampleREnv "libVoiceOver.dylib" =
      spec_resolve_dylib sampleREnv "libVoiceOver.dylib"
    ∧ resolve_dylib_path sampleREnv "libVoiceOver.dylib" =
      Except.ok "/cwd/libVoiceOver.dylib" :=
  ⟨resolve_dylib_refines_spec sampleREnv "libVoiceOver.dylib" (Or.inl rfl), by decide⟩

/-!
## Adapter-level environments and states used in witnesses
-/

/-- An adapter environment where everything works but auto-detection finds
no window. -/
def sampleEnv : Env :=
  { constructOk := true
    lib := stubLibTrue
    autoWindow := Option.none }

/-- An adapter environment where `VoiceOverBridge()` construction fails. -/
def noLibEnv : Env :=
  { constructOk := false
    lib := stubLibTrue
    autoWindow := Option.none }

/-- An adapter that is fully ready: stored handle, live initialized bridge. -/
def readySt : OutputState :=
  { bridge := Option.some { initialized := true }
    windowHandle := Option.some 7
    initializationAttempted := true
    initialized := true
    lastErrorSet := false }

/-- A window whose only accessor raises, so no handle can be extracted. -/
def badWindowRaise : PyWindow :=
  { macGetTopLevelWindowRef := AttrResult.raises
    getHandle := AttrResult.absent }

/-- Helper: truthiness of an absent handle. -/
theorem truthyOpt_none : truthyOpt Option.none = false := rfl

/-- Helper: a fresh adapter has no bridge. -/
theorem initialState_bridge : VoiceOver.initialState.bridge = Option.none := rfl

/-- Helper: truthiness of a present handle value. -/
theorem truthyOpt_some (v : Nat) : truthyOpt (Option.some v) = (v != 0) := rfl

/-- Helper: the resolved handle ignores the bridge field of the state. -/
theorem effHandle_set_bridge (env : Env) (st : OutputState) (b : Option BridgeState) :
    VoiceOver.effHandle env { st with bridge := b } = VoiceOver.effHandle env st := rfl

/-- Helper: with no truthy handle available, the readiness pass defers —
it reports not ready, only marks the attempt, and makes no native call. -/
theorem ensure_bridge_rest_no_handle (env : Env) (st : OutputState) (bs : BridgeState)
    (hh : VoiceOver.effHandle env st = Option.none) :
    VoiceOver.ensure_bridge_rest env st bs =
      (false, { st with initializationAttempted := true }, []) := by
  have hwh : truthyOpt st.windowHandle = false := by
    by_cases hw : truthyOpt st.windowHandle = true
    · rw [VoiceOver.effHandle, if_pos hw] at hh
      rw [hh] at hw
      exact absurd hw (by simp [truthyOpt_none])
    · simpa using hw
  have hauto : truthyOpt (VoiceOver.extract_handle env.autoWindow) = false := by
    by_cases ha : truthyOpt (VoiceOver.extract_handle env.autoWindow) = true
    · rw [VoiceOver.effHandle, if_neg (by simp [hwh]), if_pos ha] at hh
      rw [hh] at ha
      exact absurd ha (by simp [truthyOpt_none])
    · simpa using ha
  simp [VoiceOver.ensure_bridge_rest, hh, hwh, hauto]

/-- Helper: a failing bridge construction reports not ready, records the
error, and makes no native call. -/
theorem ensure_bridge_construct_fail (env : Env) (st : OutputState)
    (h1 : st.bridge = Option.none) (h2 : env.constructOk = false) :
    VoiceOver.ensure_bridge env st = (false, { st with lastErrorSet := true }, []) := by
  simp [VoiceOver.ensure_bridge, h1, h2]

/-- Helper: a not-yet-ready adapter with no truthy handle reports not
ready. -/
theorem ensure_bridge_no_handle (env : Env) (st : OutputState)
    (hg : (st.initialized && st.bridge.isSome) = false)
    (hh : VoiceOver.effHandle env st = Option.none) :
    (VoiceOver.ensure_bridge env st).1 = false := by
  rw [VoiceOver.ensure_bridge, if_neg (by simp [hg])]
  cases hb : st.bridge with
  | none =>
    simp only [hb]
    by_cases hco : env.constructOk = true
    · rw [if_pos hco,
        ensure_bridge_rest_no_handle env _ _ (by rw [effHandle_set_bridge]; exact hh)]
    · rw [if_neg hco]
  | some bs =>
    simp only [hb]
    rw [ensure_bridge_rest_no_handle env st bs hh]

/-- Helper: a not-yet-ready adapter whose native init returns false or
raises reports not ready. -/
theorem ensure_bridge_init_fail (env : Env) (st : OutputState) (v : Nat)
    (hg : (st.initialized && st.bridge.isSome) = false)
    (hh : VoiceOver.effHandle env st = Option.some v)
    (hi : env.lib.initRes v = Except.ok false ∨ env.lib.initRes v = Except.error ()) :
    (VoiceOver.ensure_bridge env st).1 = false := by
  have hrest : ∀ (st' : OutputState) (bs : BridgeState),
      VoiceOver.effHandle env st' = Option.some v →
      (VoiceOver.ensure_bridge_rest env st' bs).1 = false := by
    intro st' bs hh'
    rcases hi with hi | hi <;>
      simp [VoiceOver.ensure_bridge_rest, hh', VoiceOverBridge.init, isNullArg,
        ptrOfHandle, hi]
  rw [VoiceOver.ensure_bridge, if_neg (by simp [hg])]
  cases hb : st.bridge with
  | none =>
    simp only [hb]
    by_cases hco : env.constructOk = true
    · rw [if_pos hco]
      exact hrest _ _ (by rw [effHandle_set_bridge]; exact hh)
    · rw [if_neg hco]
  | some bs =>
    simp only [hb]
    exact hrest st bs hh

/-- Helper: an adapter that is already initialized with a live bridge is
ready immediately, unchanged and without native calls. -/
theorem ensure_bridge_ready (env : Env) (st : OutputState)
    (h1 : st.initialized = true) (h2 : st.bridge.isSome = true) :
    VoiceOver.ensure_bridge env st = (true, st, []) := by
  simp [VoiceOver.ensure_bridge, h1, h2]

/-- **C9.** For every adapter state and every window argument from which no
truthy handle can be extracted (null window, raising accessors, null/zero
handle, non-coercible handle), `VoiceOver.set_main_window` leaves the
adapter state completely unchanged — stored handle, bridge reference and
both flags — and does not call the prior bridge's shutdown (empty trace). -/
theorem set_main_window_noop_on_bad_window (env : Env) (st : OutputState)
    (window : Option PyWindow)
    (h : truthyOpt (VoiceOver.extract_handle window) = false) :
    VoiceOver.set_main_window env st window = (st, []) := by
  simp [VoiceOver.set_main_window, h]

/-- Witness for C9: a window whose accessor raises, against an adapter that
has a stored handle and a live bridge; the call is a no-op. -/
theorem set_main_window_noop_on_bad_window_witness :
    truthyOpt (VoiceOver.extract_handle (Option.some badWindowRaise)) = false
    ∧ VoiceOver.set_main_window sampleEnv readySt (Option.some badWindowRaise) =
        (readySt, []) :=
  ⟨by decide,
   set_main_window_noop_on_bad_window sampleEnv readySt (Option.some badWindowRaise)
     (by decide)⟩

/-- **C8 (counterexample).** The claim says `is_active()` returns false when
no window handle was ever supplied.  But `is_active` first runs a readiness
pass that constructs the bridge even without a handle, and then returns the
native `vo_is_running` result: with VoiceOver running it returns true. -/
theorem is_active_no_handle_counterexample :
    ¬ ((VoiceOver.is_active sampleEnv VoiceOver.initialState).1 = false) := by
  decide

/-- **C8 (amended).** On a fresh adapter with no window handle ever supplied
and auto-detection yielding none, `is_active()` does not raise (it is a
total boolean function): it returns false when bridge construction fails,
and otherwise it still constructs the bridge and returns the native
`vo_is_running` result (false when that call raises) — which may be true
even though no handle is set. -/
theorem is_active_no_handle_spec (env : Env)
    (h : truthyOpt (VoiceOver.extract_handle env.autoWindow) = false) :
    (VoiceOver.is_active env VoiceOver.initialState).1 =
      (if env.constructOk then
        (match env.lib.isRunningRes with
         | Except.ok b => b
         | Except.error _ => false)
      else false) := by
  have hh : VoiceOver.effHandle env VoiceOver.initialState = Option.none := by
    rw [VoiceOver.effHandle]
    rw [if_neg (by simp [VoiceOver.initialState, truthyOpt_none])]
    rw [if_neg (by simp [h])]
  have hstep : VoiceOver.ensure_bridge env VoiceOver.initialState =
      (if env.constructOk then
        VoiceOver.ensure_bridge_rest env
          { VoiceOver.initialState with bridge := Option.some { initialized := false } }
          { initialized := false }
      else (false, { VoiceOver.initialState with lastErrorSet := true }, [])) := rfl
  by_cases hco : env.constructOk = true
  · have hens : VoiceOver.ensure_bridge env VoiceOver.initialState =
        (false,
          { VoiceOver.initialState with
            bridge := Option.some { initialized := false }
            initializationAttempted := true }, []) := by
      rw [hstep, if_pos hco,
        ensure_bridge_rest_no_handle env _ _ (by rw [effHandle_set_bridge]; exact hh)]
    cases hr : env.lib.isRunningRes <;>
      simp [VoiceOver.is_active, initialState_bridge, hens, VoiceOverBridge.is_running,
        hr, hco]
  · have hco' : env.constructOk = false := by simpa using hco
    simp [VoiceOver.is_active, initialState_bridge,
      ensure_bridge_construct_fail env VoiceOver.initialState rfl hco', hco']

/-- Witness for the amended C8: with a failing bridge construction the
readiness pass leaves no bridge and `is_active` evaluates to false. -/
theorem is_active_no_handle_spec_witness :
    (VoiceOver.is_active noLibEnv VoiceOver.initialState).1 =
      (if noLibEnv.constructOk then
        (match noLibEnv.lib.isRunningRes with
         | Except.ok b => b
         | Except.error _ => false)
      else false)
    ∧ (VoiceOver.is_active noLibEnv VoiceOver.initialState).1 = false :=
  ⟨is_active_no_handle_spec noLibEnv (by decide), by decide⟩

/-- **C1.** For every input text and interrupt value and every adapter
state, `VoiceOver.speak` is a total boolean function (exceptions cannot
escape: every bridge error is caught and converted): it returns the
bridge's boolean `speak` result when the readiness pass succeeds, and
false in every other case — in particular when the bridge cannot be
constructed, when no window handle is available, and when the native init
returns false or raises (a raising native announce also yields false via
the error branch of the first conjunct). -/
theorem output_speak_total_spec (env : Env) (st : OutputState) (text : PyText)
    (interrupt : Bool) :
    ((VoiceOver.speak env st text interrupt).1 =
      (if (VoiceOver.ensure_bridge env st).1 then
        (match (VoiceOver.ensure_bridge env st).2.1.bridge with
         | Option.some bs =>
           (match (VoiceOverBridge.speak env.lib bs text interrupt).1 with
            | Except.ok b => b
            | Except.error _ => false)
         | Option.none => false)
      else false))
    ∧ (st.bridge = Option.none → env.constructOk = false →
        (VoiceOver.speak env st text interrupt).1 = false)
    ∧ ((st.initialized && st.bridge.isSome) = false →
        VoiceOver.effHandle env st = Option.none →
        (VoiceOver.speak env st text interrupt).1 = false)
    ∧ (∀ v, (st.initialized && st.bridge.isSome) = false →
        VoiceOver.effHandle env st = Option.some v →
        (env.lib.initRes v = Except.ok false ∨ env.lib.initRes v = Except.error ()) →
        (VoiceOver.speak env st text interrupt).1 = false)
    ∧ (∀ bs, st.initialized = true → st.bridge = Option.some bs →
        (VoiceOver.speak env st text interrupt).1 =
          (match (VoiceOverBridge.speak env.lib bs text interrupt).1 with
           | Except.ok b => b
           | Except.error _ => false)) := by
  have main : (VoiceOver.speak env st text interrupt).1 =
      (if (VoiceOver.ensure_bridge env st).1 then
        (match (VoiceOver.ensure_bridge env st).2.1.bridge with
         | Option.some bs =>
           (match (VoiceOverBridge.speak env.lib bs text interrupt).1 with
            | Except.ok b => b
            | Except.error _ => false)
         | Option.none => false)
      else false) := by
    rcases hens : VoiceOver.ensure_bridge env st with ⟨ready, st1, c1⟩
    cases ready
    · simp [VoiceOver.speak, hens]
    · cases hb : st1.bridge with
      | none => simp [VoiceOver.speak, hens, hb]
      | some bs =>
        rcases hsp : VoiceOverBridge.speak env.lib bs text interrupt with ⟨r, c2⟩
        cases r <;> simp [VoiceOver.speak, hens, hb, hsp]
  refine ⟨main, ?_, ?_, ?_, ?_⟩
  · intro h1 h2
    rw [main, ensure_bridge_construct_fail env st h1 h2]
    simp
  · intro hg hh
    have hf := ensure_bridge_no_handle env st hg hh
    rw [main]
    simp [hf]
  · intro v hg hh hi
    have hf := ensure_bridge_init_fail env st v hg hh hi
    rw [main]
    simp [hf]
  · intro bs h1 h2
    have hens := ensure_bridge_ready env st h1 (by rw [h2]; rfl)
    rw [main, hens]
    simp [h2]

/-- Witness for C1: a failing construction yields false, and a ready
adapter returns the bridge result (true on the stub library). -/
theorem output_speak_total_spec_witness :
    (VoiceOver.speak noLibEnv VoiceOver.initialState (PyText.str "hi") false).1 = false
    ∧ (VoiceOver.speak sampleEnv readySt (PyText.str "hi") true).1 =
        (match (VoiceOverBridge.speak sampleEnv.lib { initialized := true }
            (PyText.str "hi") true).1 with
         | Except.ok b => b
         | Except.error _ => false) :=
  ⟨(output_speak_total_spec noLibEnv VoiceOver.initialState (PyText.str "hi") false).2.1
      rfl rfl,
   (output_speak_total_spec sampleEnv readySt (PyText.str "hi") true).2.2.2.2
      { initialized := true } rfl rfl⟩

/-- Helper: trace counts add up over concatenation. -/
theorem countShutdown_append (a b : List NativeCall) :
    countShutdown (a ++ b) = countShutdown a + countShutdown b := by
  simp [countShutdown, List.count_append]

/-- Helper: a bridge `init` never invokes the native shutdown. -/
theorem countShutdown_bridge_init (lib : NativeLib) (bs : BridgeState) (h : PyHandle) :
    countShutdown (VoiceOverBridge.init lib bs h).2.2 = 0 := by
  by_cases hn : isNullArg h = true
  · simp [VoiceOverBridge.init, hn, countShutdown]
  · cases hr : lib.initRes (ptrOfHandle h) <;>
      simp [VoiceOverBridge.init, hn, hr, countShutdown]

/-- Helper: a bridge `speak` never invokes the native shutdown. -/
theorem countShutdown_bridge_speak (lib : NativeLib) (bs : BridgeState) (t : PyText)
    (i : Bool) :
    countShutdown (VoiceOverBridge.speak lib bs t i).2 = 0 := by
  by_cases h0 : bs.initialized = false
  · simp [VoiceOverBridge.speak, h0, countShutdown]
  · cases t with
    | nonStr => simp [VoiceOverBridge.speak, h0, countShutdown]
    | str s =>
      cases hr : lib.announceRes (utf8Bytes s) (if i then 1 else 0) <;>
        simp [VoiceOverBridge.speak, h0, hr, countShutdown]

/-- Helper: the readiness pass never invokes the native shutdown. -/
theorem countShutdown_ensure (env : Env) (st : OutputState) :
    countShutdown (VoiceOver.ensure_bridge env st).2.2 = 0 := by
  have hrest : ∀ (st' : OutputState) (bs : BridgeState),
      countShutdown (VoiceOver.ensure_bridge_rest env st' bs).2.2 = 0 := by
    intro st' bs
    cases hh : VoiceOver.effHandle env st' with
    | none => simp [VoiceOver.ensure_bridge_rest, hh, countShutdown]
    | some v =>
      rcases hin : VoiceOverBridge.init env.lib bs (PyHandle.cVoidP v) with ⟨r, bs2, calls⟩
      have h0 := countShutdown_bridge_init env.lib bs (PyHandle.cVoidP v)
      rw [hin] at h0
      cases r with
      | ok b => cases b <;> simp [VoiceOver.ensure_bridge_rest, hh, hin] <;> exact h0
      | error e => simp [VoiceOver.ensure_bridge_rest, hh, hin]; exact h0
  rw [VoiceOver.ensure_bridge]
  by_cases hg : (st.initialized && st.bridge.isSome) = true
  · rw [if_pos hg]; rfl
  · rw [if_neg hg]
    cases hb : st.bridge with
    | none =>
      by_cases hco : env.constructOk = true
      · simp only [hco, if_true]
        exact hrest _ _
      · simp only [hco, if_false]
        rfl
    | some bs => exact hrest st bs

/-- Helper: a bridge `is_running` never invokes the native shutdown. -/
theorem countShutdown_is_running (lib : NativeLib) :
    countShutdown (VoiceOverBridge.is_running lib).2 = 0 := by
  cases hr : lib.isRunningRes <;> simp [VoiceOverBridge.is_running, hr, countShutdown]

/-- Helper: none of `speak`, `silence`, `is_active` invokes the native
shutdown. -/
theorem countShutdown_runOp (env : Env) (st : OutputState) (op : AdapterOp) :
    countShutdown (runOp env st op).2 = 0 := by
  cases op with
  | speakOp t i =>
    rcases hens : VoiceOver.ensure_bridge env st with ⟨ready, st1, c1⟩
    have h1 := countShutdown_ensure env st
    rw [hens] at h1
    simp only [] at h1
    cases ready with
    | false => simp [runOp, VoiceOver.speak, hens]; exact h1
    | true =>
      cases hb : st1.bridge with
      | none => simp [runOp, VoiceOver.speak, hens, hb]; exact h1
      | some bs =>
        rcases hsp : VoiceOverBridge.speak env.lib bs t i with ⟨r, c2⟩
        have h2 := countShutdown_bridge_speak env.lib bs t i
        rw [hsp] at h2
        simp only [] at h2
        cases r <;>
          simp [runOp, VoiceOver.speak, hens, hb, hsp, countShutdown_append] <;>
          omega
  | silenceOp =>
    cases hb : st.bridge with
    | none => simp [runOp, VoiceOver.silence, hb, countShutdown]
    | some bs =>
      by_cases hi : bs.initialized = true
      · have h2 := countShutdown_bridge_speak env.lib bs (PyText.str "") true
        simp [runOp, VoiceOver.silence, hb, hi]
        exact h2
      · simp [runOp, VoiceOver.silence, hb, hi, countShutdown]
  | isActiveOp =>
    have hrun := countShutdown_is_running env.lib
    cases hb : st.bridge with
    | none =>
      rcases hens : VoiceOver.ensure_bridge env st with ⟨ready, st1, c1⟩
      have h1 := countShutdown_ensure env st
      rw [hens] at h1
      simp only [] at h1
      cases hb1 : st1.bridge with
      | none => simp [runOp, VoiceOver.is_active, hb, hens, hb1]; exact h1
      | some bs =>
        rcases hr : VoiceOverBridge.is_running env.lib with ⟨r, c2⟩
        rw [hr] at hrun
        simp only [] at hrun
        cases r <;>
          simp [runOp, VoiceOver.is_active, hb, hens, hb1, hr, countShutdown_append] <;>
          omega
    | some bs =>
      rcases hr : VoiceOverBridge.is_running env.lib with ⟨r, c2⟩
      rw [hr] at hrun
      simp only [] at hrun
      cases r <;>
        simp [runOp, VoiceOver.is_active, hb, hr, countShutdown_append] <;>
        omega

/-- Helper: no sequence of `speak`/`silence`/`is_active` operations ever
invokes the native shutdown. -/
theorem countShutdown_runOps (env : Env) (st : OutputState) (ops : List AdapterOp) :
    countShutdown (runOps env st ops).2 = 0 := by
  induction ops generalizing st with
  | nil => rfl
  | cons op ops ih =>
    have h1 := countShutdown_runOp env st op
    have h2 := ih (runOp env st op).1
    simp [runOps, countShutdown_append, h1, h2]

/-- **C4.** Starting from any adapter state, after `set_main_window(W1)`,
any run of `speak`/`silence`/`is_active` operations, and then
`set_main_window(W2)` — with W1 and W2 two distinct windows whose handles
both extract successfully — the adapter stores W2's handle, the bridge
created under W1 (if any) has been discarded, both the
initialization-attempted and initialized flags are false, and that prior
bridge's native shutdown was invoked exactly once by the second
`set_main_window` (and zero times by the intermediate operations; when no
bridge was created, it is never invoked). -/
theorem set_main_window_replaces_bridge (env : Env) (st0 : OutputState)
    (w1 w2 : Option PyWindow) (ops : List AdapterOp) (v1 v2 : Nat)
    (h1 : VoiceOver.extract_handle w1 = Option.some v1) (h1t : v1 ≠ 0)
    (h2 : VoiceOver.extract_handle w2 = Option.some v2) (h2t : v2 ≠ 0)
    (hne : v1 ≠ v2) :
    (VoiceOver.set_main_window env
        (runOps env (VoiceOver.set_main_window env st0 w1).1 ops).1 w2).1 =
      { bridge := Option.none
        windowHandle := Option.some v2
        initializationAttempted := false
        initialized := false
        lastErrorSet :=
          (runOps env (VoiceOver.set_main_window env st0 w1).1 ops).1.lastErrorSet }
    ∧ countShutdown
        (VoiceOver.set_main_window env
          (runOps env (VoiceOver.set_main_window env st0 w1).1 ops).1 w2).2 =
      (if (runOps env (VoiceOver.set_main_window env st0 w1).1 ops).1.bridge.isSome
       then 1 else 0)
    ∧ countShutdown (runOps env (VoiceOver.set_main_window env st0 w1).1 ops).2 = 0 := by
  have htr : truthyOpt (Option.some v2) = true := by
    rw [truthyOpt_some]
    simp [h2t]
  have key : ∀ s : OutputState,
      (VoiceOver.set_main_window env s w2).1 =
        { bridge := Option.none, windowHandle := Option.some v2,
          initializationAttempted := false, initialized := false,
          lastErrorSet := s.lastErrorSet }
      ∧ countShutdown (VoiceOver.set_main_window env s w2).2 =
        (if s.bridge.isSome then 1 else 0) := by
    intro s
    cases hb : s.bridge with
    | none => simp [VoiceOver.set_main_window, htr, h2, hb, countShutdown]
    | some bs =>
      cases hsr : env.lib.shutdownRes <;>
        simp [VoiceOver.set_main_window, htr, h2, hb, VoiceOverBridge.shutdown, hsr,
          countShutdown, List.count_cons, List.count_nil]
  exact ⟨(key _).1, (key _).2,
    countShutdown_runOps env (VoiceOver.set_main_window env st0 w1).1 ops⟩

/-- A window exposing only `GetHandle`, returning the integer 1. -/
def winOne : PyWindow :=
  { macGetTopLevelWindowRef := AttrResult.absent
    getHandle := AttrResult.returns (HandleVal.int 1) }

/-- A window exposing `MacGetTopLevelWindowRef`, returning the integer 2. -/
def winTwo : PyWindow :=
  { macGetTopLevelWindowRef := AttrResult.returns (HandleVal.int 2)
    getHandle := AttrResult.absent }

/-- Witness for C4: a concrete run — set window 1, speak once (which
constructs and initializes a bridge), set window 2 — ends with handle 2,
no bridge, cleared flags, and exactly one native shutdown call. -/
theorem set_main_window_replaces_bridge_witness :
    ((VoiceOver.set_main_window sampleEnv
        (runOps sampleEnv (VoiceOver.set_main_window sampleEnv VoiceOver.initialState
          (Option.some winOne)).1 [AdapterOp.speakOp (PyText.str "x") true]).1
        (Option.some winTwo)).1 =
      { bridge := Option.none
        windowHandle := Option.some 2
        initializationAttempted := false
        initialized := false
        lastErrorSet :=
          (runOps sampleEnv (VoiceOver.set_main_window sampleEnv VoiceOver.initialState
            (Option.some winOne)).1 [AdapterOp.speakOp (PyText.str "x") true]).1.lastErrorSet }
    ∧ countShutdown
        (VoiceOver.set_main_window sampleEnv
          (runOps sampleEnv (VoiceOver.set_main_window sampleEnv VoiceOver.initialState
            (Option.some winOne)).1 [AdapterOp.speakOp (PyText.str "x") true]).1
          (Option.some winTwo)).2 =
      (if (runOps sampleEnv (VoiceOver.set_main_window sampleEnv VoiceOver.initialState
            (Option.some winOne)).1 [AdapterOp.speakOp (PyText.str "x") true]).1.bridge.isSome
       then 1 else 0)
    ∧ countShutdown (runOps sampleEnv (VoiceOver.set_main_window sampleEnv
        VoiceOver.initialState (Option.some winOne)).1
        [AdapterOp.speakOp (PyText.str "x") true]).2 = 0)
    ∧ countShutdown
        (VoiceOver.set_main_window sampleEnv
          (runOps sampleEnv (VoiceOver.set_main_window sampleEnv VoiceOver.initialState
            (Option.some winOne)).1 [AdapterOp.speakOp (PyText.str "x") true]).1
          (Option.some winTwo)).2 = 1 :=
  ⟨set_main_window_replaces_bridge sampleEnv VoiceOver.initialState
      (Option.some winOne) (Option.some winTwo) [AdapterOp.speakOp (PyText.str "x") true]
      1 2 (by decide) (by decide) (by decide) (by decide) (by decide),
   by decide⟩
